import Mathlib

/-!
Verification development for the skysnoop backend-abstraction and
unified-response layer.

The Python source is shallowly embedded as follows:
* Python floats are idealized as rationals (`ℚ`) where only field-copying and
  order comparisons occur, and as reals (`ℝ`) where transcendental functions
  (the haversine great-circle formula) are involved.
* Python `int` is `ℤ`; `None`-able fields are `Option`; raised exceptions are
  an explicit `Except` error channel with an inductive error taxonomy.
* Network interaction is modelled by an oracle `Request → response`; each
  client operation returns the list of requests it issued together with its
  `Except` outcome, so "no network call is made" is the statement that the
  request list is empty.
-/

namespace SkySnoop

/-- Altitude union from the wire schema: integer feet or the literal string
`"ground"` (`alt_baro: int | Literal["ground"] | None` in `models/aircraft.py`). -/
inductive AltValue where
  | ground
  | feet (n : ℤ)
deriving DecidableEq

/-- One aircraft item of the OpenAPI `V2ResponseModel` (`V2ResponseAcItem`).
The embedding carries the identity, position and representative telemetry
fields; the remaining optional telemetry fields of the generated schema play
no role in the specified properties and are handled identically (verbatim
optional copies). -/
structure V2ResponseAcItem where
  hex : String
  flight : Option String := none
  squawk : Option String := none
  r : Option String := none
  t : Option String := none
  category : Option String := none
  lat : Option ℚ := none
  lon : Option ℚ := none
  seen_pos : Option ℚ := none
  alt_baro : Option AltValue := none
  gs : Option ℚ := none
  emergency : Option String := none
  messages : Option ℤ := none
  seen : Option ℚ := none
  rssi : Option ℚ := none
  db_flags : Option ℤ := none
deriving DecidableEq

/-- OpenAPI v2 response envelope (`V2ResponseModel`): record list `ac`,
server-reported `total`, server timestamp `now`. The generated pydantic model
performs no cross-field validation between `total` and `len(ac)`. -/
structure V2ResponseModel where
  ac : List V2ResponseAcItem
  total : ℤ
  now : ℚ
deriving DecidableEq

/-- Unified aircraft record (`models/aircraft.py`, class `Aircraft`), same
field subset as the wire item; `registration`/`type` are the normalized names
for the OpenAPI short codes `r`/`t`. -/
structure Aircraft where
  hex : String
  flight : Option String := none
  squawk : Option String := none
  registration : Option String := none
  type : Option String := none
  category : Option String := none
  lat : Option ℚ := none
  lon : Option ℚ := none
  seen_pos : Option ℚ := none
  alt_baro : Option AltValue := none
  gs : Option ℚ := none
  emergency : Option String := none
  messages : Option ℤ := none
  seen : Option ℚ := none
  rssi : Option ℚ := none
  dbFlags : Option ℤ := none
deriving DecidableEq

/-- `has_position` derived property of `Aircraft`: lat and lon both present. -/
def Aircraft.has_position (a : Aircraft) : Bool :=
  a.lat.isSome && a.lon.isSome

/-- Backend identifier (`BackendType = Literal["openapi", "reapi"]`). -/
inductive BackendType where
  | openapi
  | reapi
deriving DecidableEq

/-- RE-API response envelope (`models/response.py`, class `APIResponse`). -/
structure APIResponse where
  now : ℚ
  resultCount : ℤ
  ptime : ℚ
  aircraft : List Aircraft
deriving DecidableEq

/-- Unified query-result envelope (`models/skydata.py`, class `SkyData`). -/
structure SkyData where
  timestamp : ℚ
  result_count : ℤ
  processing_time : Option ℚ
  aircraft : List Aircraft
  backend : BackendType
  simulated : Bool
deriving DecidableEq

/-- `SkyData.count` property: returns `result_count`. -/
def SkyData.count (d : SkyData) : ℤ := d.result_count

/-- Error taxonomy as an inductive type. `unsupportedOperation` embeds
`UnsupportedOperationError` (raised in `openapi_adapter.py`; the class
definition itself lives outside the provided sources — modelled from the
spec as the `UnsupportedOperation` signal of §7). `runtimeError` embeds
Python's builtin `RuntimeError`, which `SkySnoop._ensure_adapter` raises and
which realizes the spec's `NotInitialized` programmer-error signal. -/
inductive SkyErr where
  | unsupportedOperation (msg : String)
  | runtimeError (msg : String)
  | invalidParameters (msg : String)
deriving DecidableEq

/-- Python `int()` applied to a numeric value: truncation toward zero
(floor for non-negative values, ceiling for negative ones). -/
def pyInt {α : Type} [LinearOrderedRing α] [FloorRing α] (x : α) : ℤ :=
  if 0 ≤ x then ⌊x⌋ else ⌈x⌉

/-- `math.radians`: degrees to radians. -/
noncomputable def radians (x : ℝ) : ℝ := x * Real.pi / 180

open Classical in
/-- `math.atan2 y x`: the standard two-argument arctangent. In the haversine
code path both arguments are square roots, hence non-negative, so only the
first and the `x = 0` branches are ever exercised. -/
noncomputable def atan2 (y x : ℝ) : ℝ :=
  if 0 < x then Real.arctan (y / x)
  else if x < 0 ∧ 0 ≤ y then Real.arctan (y / x) + Real.pi
  else if x < 0 ∧ y < 0 then Real.arctan (y / x) - Real.pi
  else if x = 0 ∧ 0 < y then Real.pi / 2
  else if x = 0 ∧ y < 0 then -(Real.pi / 2)
  else 0

/-- `OpenAPIAdapter._calculate_haversine_distance`: great-circle distance in
nautical miles via the haversine formula, Earth radius 3440.065 NM. -/
noncomputable def calculate_haversine_distance (lat1 lon1 lat2 lon2 : ℝ) : ℝ :=
  let R : ℝ := 3440.065
  let lat1_rad := radians lat1
  let lat2_rad := radians lat2
  let delta_lat := radians (lat2 - lat1)
  let delta_lon := radians (lon2 - lon1)
  let a := Real.sin (delta_lat / 2) ^ 2 +
    Real.cos lat1_rad * Real.cos lat2_rad * Real.sin (delta_lon / 2) ^ 2
  let c := 2 * atan2 (Real.sqrt a) (Real.sqrt (1 - a))
  R * c

/-- `OpenAPIAdapter._is_in_box`: point-in-box test on a wire aircraft item,
with antimeridian wraparound on the longitude check. -/
def is_in_box (aircraft : V2ResponseAcItem)
    (lat_south lat_north lon_west lon_east : ℚ) : Bool :=
  match aircraft.lat, aircraft.lon with
  | some la, some lo =>
    if ¬ (lat_south ≤ la ∧ la ≤ lat_north) then false
    else if lon_west ≤ lon_east then
      decide (lon_west ≤ lo ∧ lo ≤ lon_east)
    else
      decide (lo ≥ lon_west ∨ lo ≤ lon_east)
  | _, _ => false

/-- `OpenAPIAdapter._convert_aircraft`: normalize a wire aircraft item into
the unified `Aircraft` record (`registration := r`, `type := t`, everything
else copied verbatim). -/
def convert_aircraft (v2_aircraft : V2ResponseAcItem) : Aircraft :=
  { hex := v2_aircraft.hex
    flight := v2_aircraft.flight
    squawk := v2_aircraft.squawk
    registration := v2_aircraft.r
    type := v2_aircraft.t
    category := v2_aircraft.category
    lat := v2_aircraft.lat
    lon := v2_aircraft.lon
    seen_pos := v2_aircraft.seen_pos
    alt_baro := v2_aircraft.alt_baro
    gs := v2_aircraft.gs
    emergency := v2_aircraft.emergency
    messages := v2_aircraft.messages
    seen := v2_aircraft.seen
    rssi := v2_aircraft.rssi
    dbFlags := v2_aircraft.db_flags }

/-- `OpenAPIAdapter._convert_v2_response`: normalize a v2 envelope into
`SkyData`; `result_count` is copied from the server-reported `total`. -/
def convert_v2_response (v2_response : V2ResponseModel)
    (simulated : Bool) : SkyData :=
  { timestamp := v2_response.now
    result_count := v2_response.total
    processing_time := none
    aircraft := v2_response.ac.map convert_aircraft
    backend := .openapi
    simulated := simulated }

/-- `ReAPIAdapter._convert_api_response`: normalize an RE-API envelope into
`SkyData`; `result_count` is copied from the server-reported `resultCount`. -/
def convert_api_response (api_response : APIResponse)
    (simulated : Bool) : SkyData :=
  { timestamp := api_response.now
    result_count := api_response.resultCount
    processing_time := some api_response.ptime
    aircraft := api_response.aircraft
    backend := .reapi
    simulated := simulated }

/-- QueryFilters value object (`query/filters.py`): all fields optional. -/
structure QueryFilters where
  callsign_exact : Option String := none
  callsign_prefix : Option String := none
  squawk : Option String := none
  type_code : Option String := none
  above_alt_baro : Option ℤ := none
  below_alt_baro : Option ℤ := none
  mil : Option Bool := none
  pia : Option Bool := none
  ladd : Option Bool := none
deriving DecidableEq

/-- `validate_callsign_filters` model validator: `callsign_exact` and
`callsign_prefix` are mutually exclusive. -/
def validate_callsign_filters (f : QueryFilters) : Except String QueryFilters :=
  if f.callsign_exact.isSome ∧ f.callsign_prefix.isSome then
    .error "callsign_exact and callsign_prefix are mutually exclusive"
  else .ok f

/-- `validate_altitude_range` model validator: when both altitude thresholds
are set, `above_alt_baro` strictly greater than `below_alt_baro` fails. -/
def validate_altitude_range (f : QueryFilters) : Except String QueryFilters :=
  match f.above_alt_baro, f.below_alt_baro with
  | some a, some b =>
    if a > b then
      .error "above_alt_baro must be less than below_alt_baro"
    else .ok f
  | _, _ => .ok f

/-- Pydantic construction of `QueryFilters`: build the instance then run the
two `mode="after"` validators in declaration order. -/
def mkQueryFilters (f : QueryFilters) : Except String QueryFilters :=
  validate_callsign_filters f >>= validate_altitude_range

/-- Hex digit used by percent-encoding (uppercase, as in `urllib`). -/
def hexDigit (n : ℕ) : Char :=
  if n < 10 then Char.ofNat (48 + n) else Char.ofNat (65 + n - 10)

/-- One character of `urllib.parse.quote_plus`: alphanumerics and `_.-~` pass
through, space becomes `+`, anything else is percent-encoded. Inputs produced
by this library are ASCII, so the single-byte encoding suffices. -/
def quoteChar (c : Char) : String :=
  if c = ' ' then "+"
  else if c.isAlphanum ∨ c = '_' ∨ c = '.' ∨ c = '-' ∨ c = '~' then
    String.singleton c
  else
    "%" ++ String.singleton (hexDigit (c.toNat / 16)) ++
      String.singleton (hexDigit (c.toNat % 16))

/-- `urllib.parse.quote_plus` on an ASCII string. -/
def quote_via_plus (s : String) : String :=
  String.join (s.data.map quoteChar)

/-- `urllib.parse.urlencode`: percent-encode each key and value and join as
`k=v` pairs with `&`. -/
def urlencode (params : List (String × String)) : String :=
  String.intercalate "&" (params.map fun kv => quote_via_plus kv.1 ++ "=" ++ quote_via_plus kv.2)

/-- One `if field is not None: params[key] = render(value)` statement of
`to_query_params`: contributes a single `key = render value` entry when the
field is set, nothing otherwise. -/
def optEntry {α : Type} (o : Option α) (key : String) (render : α → String) :
    List (String × String) :=
  match o with
  | some v => [(key, render v)]
  | none => []

/-- `QueryFilters.to_query_params`: dictionary of set filters in declaration
order, keys carrying the `filter_` prefix, booleans as `"true"`/`"false"`,
integers via `str()`. -/
def QueryFilters.to_query_params (f : QueryFilters) : List (String × String) :=
  optEntry f.callsign_exact "filter_callsign" (fun v => v) ++
  optEntry f.callsign_prefix "filter_callsign_prefix" (fun v => v) ++
  optEntry f.squawk "filter_squawk" (fun v => v) ++
  optEntry f.type_code "filter_type" (fun v => v) ++
  optEntry f.above_alt_baro "filter_above_alt_baro" (fun v => toString v) ++
  optEntry f.below_alt_baro "filter_below_alt_baro" (fun v => toString v) ++
  optEntry f.mil "filter_mil" (fun v => if v then "true" else "false") ++
  optEntry f.pia "filter_pia" (fun v => if v then "true" else "false") ++
  optEntry f.ladd "filter_ladd" (fun v => if v then "true" else "false")

/-- `QueryFilters.to_query_string`: empty when no filter is set, otherwise
`urlencode` of the parameter dictionary. -/
def QueryFilters.to_query_string (f : QueryFilters) : String :=
  let params := QueryFilters.to_query_params f
  if params = [] then "" else urlencode params

/-- Python `str()` of a float whose value is a terminating decimal: integers
render with a trailing `.0`, other values with their decimal digits. (Binary
floating-point rounding is outside the embedding; Python floats are idealized
as the decimal rationals they display as.) -/
def pyFloatStr (q : ℚ) : String :=
  let k := (((List.range 65).find? fun k => (q * (10:ℚ) ^ k).den = 1)).getD 0
  if k = 0 then toString q.num ++ ".0"
  else
    let scaled := (q * (10:ℚ) ^ k).num
    let sign := if q < 0 then "-" else ""
    let digits := toString scaled.natAbs
    let padded :=
      if digits.length ≤ k then
        String.mk (List.replicate (k + 1 - digits.length) '0') ++ digits
      else digits
    sign ++ padded.dropRight k ++ "." ++ padded.takeRight k

/-- `QueryBuilder.build_circle` (`query/builder.py`): comma-joined
`circle=lat,lon,radius`, filters appended with `&` when any are set. The
coordinate segment is a plain f-string, never percent-encoded. -/
def QueryBuilder.build_circle (lat lon radius : ℚ)
    (filters : Option QueryFilters) : String :=
  let query := "circle=" ++ pyFloatStr lat ++ "," ++ pyFloatStr lon ++ "," ++ pyFloatStr radius
  match filters with
  | none => query
  | some f =>
    let filter_str := QueryFilters.to_query_string f
    if filter_str = "" then query else query ++ "&" ++ filter_str

/-- `QueryBuilder.build_closest`: comma-joined `closest=lat,lon,radius`. -/
def QueryBuilder.build_closest (lat lon radius : ℚ)
    (filters : Option QueryFilters) : String :=
  let query := "closest=" ++ pyFloatStr lat ++ "," ++ pyFloatStr lon ++ "," ++ pyFloatStr radius
  match filters with
  | none => query
  | some f =>
    let filter_str := QueryFilters.to_query_string f
    if filter_str = "" then query else query ++ "&" ++ filter_str

/-- `QueryBuilder.build_box`: comma-joined
`box=lat_south,lat_north,lon_west,lon_east`. -/
def QueryBuilder.build_box (lat_south lat_north lon_west lon_east : ℚ)
    (filters : Option QueryFilters) : String :=
  let query := "box=" ++ pyFloatStr lat_south ++ "," ++ pyFloatStr lat_north ++ "," ++
    pyFloatStr lon_west ++ "," ++ pyFloatStr lon_east
  match filters with
  | none => query
  | some f =>
    let filter_str := QueryFilters.to_query_string f
    if filter_str = "" then query else query ++ "&" ++ filter_str

/-- `QueryBuilder.build_find_hex`. -/
def QueryBuilder.build_find_hex (hex_code : String) : String :=
  "find_hex=" ++ hex_code

/-- `QueryBuilder.build_find_callsign`. -/
def QueryBuilder.build_find_callsign (callsign : String) : String :=
  "find_callsign=" ++ callsign

/-- `QueryBuilder.build_find_reg`. -/
def QueryBuilder.build_find_reg (registration : String) : String :=
  "find_reg=" ++ registration

/-- `QueryBuilder.build_find_type`. -/
def QueryBuilder.build_find_type (type_code : String) : String :=
  "find_type=" ++ type_code

/-- `QueryBuilder.build_all_with_pos`. -/
def QueryBuilder.build_all_with_pos (filters : Option QueryFilters) : String :=
  let query := "all_with_pos"
  match filters with
  | none => query
  | some f =>
    let filter_str := QueryFilters.to_query_string f
    if filter_str = "" then query else query ++ "&" ++ filter_str

/-- A native OpenAPI request (`OpenAPIClient.v2`): each constructor is one
endpoint (`/v2/point/{lat}/{lon}/{radius}`, `/v2/closest/...`, `/v2/hex/...`,
`/v2/callsign/...`, `/v2/reg/...`, `/v2/type/...`). The radius path segment
is an `int`. -/
inductive V2Request where
  | point (lat lon : ℚ) (radius : ℤ)
  | closest (lat lon : ℚ) (radius : ℤ)
  | hex (code : String)
  | callsign (v : String)
  | registration (v : String)
  | typeDesignator (v : String)
deriving DecidableEq

/-- A network request issued by either backend: a native OpenAPI request or
an RE-API query string. -/
inductive NetRequest where
  | openapi (r : V2Request)
  | reapi (query : String)
deriving DecidableEq

/-- The network oracle for the OpenAPI backend: what the server answers to
each request. Operations are modelled as functions of this oracle returning
the list of requests they issued together with their outcome. -/
def V2Oracle : Type := V2Request → V2ResponseModel

/-- The network oracle for the RE-API backend, keyed by query string. -/
def ReOracle : Type := String → APIResponse

/-- `OpenAPIAdapter.get_by_hex`. -/
def OpenAPIAdapter.get_by_hex (oracle : V2Oracle) (hex_code : String) :
    List V2Request × Except SkyErr SkyData :=
  let req := V2Request.hex hex_code
  ([req], .ok (convert_v2_response (oracle req) false))

/-- `OpenAPIAdapter.get_by_callsign`. -/
def OpenAPIAdapter.get_by_callsign (oracle : V2Oracle) (callsign : String) :
    List V2Request × Except SkyErr SkyData :=
  let req := V2Request.callsign callsign
  ([req], .ok (convert_v2_response (oracle req) false))

/-- `OpenAPIAdapter.get_by_registration`. -/
def OpenAPIAdapter.get_by_registration (oracle : V2Oracle) (registration : String) :
    List V2Request × Except SkyErr SkyData :=
  let req := V2Request.registration registration
  ([req], .ok (convert_v2_response (oracle req) false))

/-- `OpenAPIAdapter.get_by_type`. -/
def OpenAPIAdapter.get_by_type (oracle : V2Oracle) (aircraft_type : String) :
    List V2Request × Except SkyErr SkyData :=
  let req := V2Request.typeDesignator aircraft_type
  ([req], .ok (convert_v2_response (oracle req) false))

/-- `OpenAPIAdapter.get_in_circle`: filters are ignored (logged warning);
the native point request receives `int(radius)`. -/
def OpenAPIAdapter.get_in_circle (oracle : V2Oracle) (lat lon radius : ℚ)
    (filters : Option QueryFilters) :
    List V2Request × Except SkyErr SkyData :=
  let req := V2Request.point lat lon (pyInt radius)
  ([req], .ok (convert_v2_response (oracle req) false))

/-- `OpenAPIAdapter.get_closest`: filters are ignored (logged warning);
the native closest request receives `int(radius)`. -/
def OpenAPIAdapter.get_closest (oracle : V2Oracle) (lat lon radius : ℚ)
    (filters : Option QueryFilters) :
    List V2Request × Except SkyErr SkyData :=
  let req := V2Request.closest lat lon (pyInt radius)
  ([req], .ok (convert_v2_response (oracle req) false))

/-- The covering radius computed by the box simulation: haversine distance
from the box center to the north-east corner times 1.1 (10% buffer). -/
noncomputable def boxCoveringRadius (lat_south lat_north lon_west lon_east : ℚ) : ℝ :=
  calculate_haversine_distance
    ((lat_south + lat_north) / 2 : ℚ) ((lon_west + lon_east) / 2 : ℚ)
    (lat_north : ℚ) (lon_east : ℚ) * 1.1

/-- `OpenAPIAdapter.get_in_box`: simulated box search. Computes the box
center and covering radius, issues one native point request, filters the
returned records client-side with `is_in_box`, and returns the filtered,
converted records with `simulated := true` and `result_count` set to the
length of the filtered list. -/
noncomputable def OpenAPIAdapter.get_in_box (oracle : V2Oracle)
    (lat_south lat_north lon_west lon_east : ℚ)
    (filters : Option QueryFilters) :
    List V2Request × Except SkyErr SkyData :=
  let center_lat := (lat_south + lat_north) / 2
  let center_lon := (lon_west + lon_east) / 2
  let radius := boxCoveringRadius lat_south lat_north lon_west lon_east
  let req := V2Request.point center_lat center_lon (pyInt radius)
  let v2_response := oracle req
  let filtered_aircraft :=
    (v2_response.ac.filter fun ac =>
      is_in_box ac lat_south lat_north lon_west lon_east).map convert_aircraft
  ([req],
    .ok
      { timestamp := v2_response.now
        result_count := filtered_aircraft.length
        processing_time := none
        aircraft := filtered_aircraft
        backend := .openapi
        simulated := true })

/-- `OpenAPIAdapter.get_all_with_pos`: always raises
`UnsupportedOperationError` naming the 250 NM coverage limitation, for every
filters argument, before any network activity. -/
def OpenAPIAdapter.get_all_with_pos (filters : Option QueryFilters) :
    List V2Request × Except SkyErr SkyData :=
  ([],
    .error (.unsupportedOperation
      "get_all_with_pos() is not supported by the OpenAPI backend due to the 250 NM radius limitation. Please use backend=\x27reapi\x27 for this operation."))

/-- `ReAPIAdapter.get_by_hex` via `ReAPIClient.find_hex`. -/
def ReAPIAdapter.get_by_hex (oracle : ReOracle) (hex_code : String) :
    List String × Except SkyErr SkyData :=
  let query := QueryBuilder.build_find_hex hex_code
  ([query], .ok (convert_api_response (oracle query) false))

/-- `ReAPIAdapter.get_by_callsign` via `ReAPIClient.find_callsign`. -/
def ReAPIAdapter.get_by_callsign (oracle : ReOracle) (callsign : String) :
    List String × Except SkyErr SkyData :=
  let query := QueryBuilder.build_find_callsign callsign
  ([query], .ok (convert_api_response (oracle query) false))

/-- `ReAPIAdapter.get_by_registration` via `ReAPIClient.find_reg`. -/
def ReAPIAdapter.get_by_registration (oracle : ReOracle) (registration : String) :
    List String × Except SkyErr SkyData :=
  let query := QueryBuilder.build_find_reg registration
  ([query], .ok (convert_api_response (oracle query) false))

/-- `ReAPIAdapter.get_by_type` via `ReAPIClient.find_type`. -/
def ReAPIAdapter.get_by_type (oracle : ReOracle) (aircraft_type : String) :
    List String × Except SkyErr SkyData :=
  let query := QueryBuilder.build_find_type aircraft_type
  ([query], .ok (convert_api_response (oracle query) false))

/-- `ReAPIAdapter.get_in_circle` via `ReAPIClient.circle`: the float radius
is passed through to the query builder unchanged. -/
def ReAPIAdapter.get_in_circle (oracle : ReOracle) (lat lon radius : ℚ)
    (filters : Option QueryFilters) :
    List String × Except SkyErr SkyData :=
  let query := QueryBuilder.build_circle lat lon radius filters
  ([query], .ok (convert_api_response (oracle query) false))

/-- `ReAPIAdapter.get_closest` via `ReAPIClient.closest`. -/
def ReAPIAdapter.get_closest (oracle : ReOracle) (lat lon radius : ℚ)
    (filters : Option QueryFilters) :
    List String × Except SkyErr SkyData :=
  let query := QueryBuilder.build_closest lat lon radius filters
  ([query], .ok (convert_api_response (oracle query) false))

/-- `ReAPIAdapter.get_in_box` via `ReAPIClient.box`: native, no simulation. -/
def ReAPIAdapter.get_in_box (oracle : ReOracle)
    (lat_south lat_north lon_west lon_east : ℚ)
    (filters : Option QueryFilters) :
    List String × Except SkyErr SkyData :=
  let query := QueryBuilder.build_box lat_south lat_north lon_west lon_east filters
  ([query], .ok (convert_api_response (oracle query) false))

/-- `ReAPIAdapter.get_all_with_pos` via `ReAPIClient.all_with_pos`. -/
def ReAPIAdapter.get_all_with_pos (oracle : ReOracle)
    (filters : Option QueryFilters) :
    List String × Except SkyErr SkyData :=
  let query := QueryBuilder.build_all_with_pos filters
  ([query], .ok (convert_api_response (oracle query) false))

/-- The backend method set (`client/protocol.py`, `BackendProtocol`),
as instantiated by an adapter inside the facade's scoped block. -/
structure BackendImpl where
  get_by_hex : String → List NetRequest × Except SkyErr SkyData
  get_by_callsign : String → List NetRequest × Except SkyErr SkyData
  get_by_registration : String → List NetRequest × Except SkyErr SkyData
  get_by_type : String → List NetRequest × Except SkyErr SkyData
  get_in_circle : ℚ → ℚ → ℚ → Option QueryFilters → List NetRequest × Except SkyErr SkyData
  get_closest : ℚ → ℚ → ℚ → Option QueryFilters → List NetRequest × Except SkyErr SkyData
  get_in_box : ℚ → ℚ → ℚ → ℚ → Option QueryFilters → List NetRequest × Except SkyErr SkyData
  get_all_with_pos : Option QueryFilters → List NetRequest × Except SkyErr SkyData

/-- The `OpenAPIAdapter` as a `BackendImpl` over a network oracle
(instantiated by `SkySnoop.__aenter__` when the openapi backend is chosen). -/
noncomputable def OpenAPIAdapter.impl (oracle : V2Oracle) : BackendImpl :=
  { get_by_hex := fun h =>
      let r := OpenAPIAdapter.get_by_hex oracle h
      (r.1.map NetRequest.openapi, r.2)
    get_by_callsign := fun c =>
      let r := OpenAPIAdapter.get_by_callsign oracle c
      (r.1.map NetRequest.openapi, r.2)
    get_by_registration := fun v =>
      let r := OpenAPIAdapter.get_by_registration oracle v
      (r.1.map NetRequest.openapi, r.2)
    get_by_type := fun v =>
      let r := OpenAPIAdapter.get_by_type oracle v
      (r.1.map NetRequest.openapi, r.2)
    get_in_circle := fun lat lon radius filters =>
      let r := OpenAPIAdapter.get_in_circle oracle lat lon radius filters
      (r.1.map NetRequest.openapi, r.2)
    get_closest := fun lat lon radius filters =>
      let r := OpenAPIAdapter.get_closest oracle lat lon radius filters
      (r.1.map NetRequest.openapi, r.2)
    get_in_box := fun ls ln lw le filters =>
      let r := OpenAPIAdapter.get_in_box oracle ls ln lw le filters
      (r.1.map NetRequest.openapi, r.2)
    get_all_with_pos := fun filters =>
      let r := OpenAPIAdapter.get_all_with_pos filters
      (r.1.map NetRequest.openapi, r.2) }

/-- The `ReAPIAdapter` as a `BackendImpl` over a network oracle. -/
def ReAPIAdapter.impl (oracle : ReOracle) : BackendImpl :=
  { get_by_hex := fun h =>
      let r := ReAPIAdapter.get_by_hex oracle h
      (r.1.map NetRequest.reapi, r.2)
    get_by_callsign := fun c =>
      let r := ReAPIAdapter.get_by_callsign oracle c
      (r.1.map NetRequest.reapi, r.2)
    get_by_registration := fun v =>
      let r := ReAPIAdapter.get_by_registration oracle v
      (r.1.map NetRequest.reapi, r.2)
    get_by_type := fun v =>
      let r := ReAPIAdapter.get_by_type oracle v
      (r.1.map NetRequest.reapi, r.2)
    get_in_circle := fun lat lon radius filters =>
      let r := ReAPIAdapter.get_in_circle oracle lat lon radius filters
      (r.1.map NetRequest.reapi, r.2)
    get_closest := fun lat lon radius filters =>
      let r := ReAPIAdapter.get_closest oracle lat lon radius filters
      (r.1.map NetRequest.reapi, r.2)
    get_in_box := fun ls ln lw le filters =>
      let r := ReAPIAdapter.get_in_box oracle ls ln lw le filters
      (r.1.map NetRequest.reapi, r.2)
    get_all_with_pos := fun filters =>
      let r := ReAPIAdapter.get_all_with_pos oracle filters
      (r.1.map NetRequest.reapi, r.2) }

/-- Facade state (`client/skysnoop.py`, class `SkySnoop`): outside the scoped
block `adapter` is `none` (as after `__init__` and after `__aexit__`); inside
it holds the instantiated backend. -/
structure SkySnoopClient where
  backend_type : BackendType
  adapter : Option BackendImpl

/-- `SkySnoop._ensure_adapter`: raises builtin `RuntimeError` when no adapter
is active (the `NotInitialized` programmer-error signal of §7). -/
def ensure_adapter (c : SkySnoopClient) : Except SkyErr BackendImpl :=
  match c.adapter with
  | none => .error (.runtimeError "SkySnoop must be used as an async context manager")
  | some a => .ok a

/-- `SkySnoop.get_by_hex`: ensure the adapter is active, then delegate. -/
def SkySnoopClient.get_by_hex (c : SkySnoopClient) (hex_code : String) :
    List NetRequest × Except SkyErr SkyData :=
  match ensure_adapter c with
  | .error e => ([], .error e)
  | .ok adapter => adapter.get_by_hex hex_code

/-- `SkySnoop.get_by_callsign`. -/
def SkySnoopClient.get_by_callsign (c : SkySnoopClient) (callsign : String) :
    List NetRequest × Except SkyErr SkyData :=
  match ensure_adapter c with
  | .error e => ([], .error e)
  | .ok adapter => adapter.get_by_callsign callsign

/-- `SkySnoop.get_by_registration`. -/
def SkySnoopClient.get_by_registration (c : SkySnoopClient) (registration : String) :
    List NetRequest × Except SkyErr SkyData :=
  match ensure_adapter c with
  | .error e => ([], .error e)
  | .ok adapter => adapter.get_by_registration registration

/-- `SkySnoop.get_by_type`. -/
def SkySnoopClient.get_by_type (c : SkySnoopClient) (aircraft_type : String) :
    List NetRequest × Except SkyErr SkyData :=
  match ensure_adapter c with
  | .error e => ([], .error e)
  | .ok adapter => adapter.get_by_type aircraft_type

/-- `SkySnoop.get_in_circle`. -/
def SkySnoopClient.get_in_circle (c : SkySnoopClient) (lat lon radius : ℚ)
    (filters : Option QueryFilters) :
    List NetRequest × Except SkyErr SkyData :=
  match ensure_adapter c with
  | .error e => ([], .error e)
  | .ok adapter => adapter.get_in_circle lat lon radius filters

/-- `SkySnoop.get_closest`. -/
def SkySnoopClient.get_closest (c : SkySnoopClient) (lat lon radius : ℚ)
    (filters : Option QueryFilters) :
    List NetRequest × Except SkyErr SkyData :=
  match ensure_adapter c with
  | .error e => ([], .error e)
  | .ok adapter => adapter.get_closest lat lon radius filters

/-- `SkySnoop.get_in_box`: delegates with `lat_south := lat_min`,
`lat_north := lat_max`, `lon_west := lon_min`, `lon_east := lon_max`. -/
def SkySnoopClient.get_in_box (c : SkySnoopClient) (lat_min lat_max lon_min lon_max : ℚ)
    (filters : Option QueryFilters) :
    List NetRequest × Except SkyErr SkyData :=
  match ensure_adapter c with
  | .error e => ([], .error e)
  | .ok adapter => adapter.get_in_box lat_min lat_max lon_min lon_max filters

/-- `SkySnoop.get_all_with_pos`. -/
def SkySnoopClient.get_all_with_pos (c : SkySnoopClient)
    (filters : Option QueryFilters) :
    List NetRequest × Except SkyErr SkyData :=
  match ensure_adapter c with
  | .error e => ([], .error e)
  | .ok adapter => adapter.get_all_with_pos filters

/-- Python truthiness of an optional string: `None` and `""` are falsy,
every other string (including whitespace-only) is truthy. -/
def pyTruthyStr (s : Option String) : Bool :=
  match s with
  | none => false
  | some v => v ≠ ""

/-- `select_backend_sync` (`client/backend_selection.py`): API key present →
openapi; else prefer_reapi → reapi; else openapi. -/
def select_backend_sync (api_key : Option String)
    (prefer_reapi : Bool) : BackendType :=
  if pyTruthyStr api_key then .openapi
  else if prefer_reapi then .reapi
  else .openapi

/-! ## Helper lemmas -/

/-- Characterization of the point-in-box test, shared by several results. -/
theorem is_in_box_iff (ac : V2ResponseAcItem)
    (lat_south lat_north lon_west lon_east : ℚ) :
    is_in_box ac lat_south lat_north lon_west lon_east = true ↔
      ∃ la lo, ac.lat = some la ∧ ac.lon = some lo ∧
        lat_south ≤ la ∧ la ≤ lat_north ∧
        ((lon_west ≤ lon_east ∧ lon_west ≤ lo ∧ lo ≤ lon_east) ∨
         (lon_east < lon_west ∧ (lo ≥ lon_west ∨ lo ≤ lon_east))) := by
  unfold is_in_box
  rcases h1 : ac.lat with _ | la <;> rcases h2 : ac.lon with _ | lo <;> simp
  by_cases hlat : lat_south ≤ la ∧ la ≤ lat_north
  · by_cases hlon : lon_west ≤ lon_east
    · simp [hlat, hlon, not_lt.mpr hlon]
    · simp [hlat, hlon, lt_of_not_le hlon]
  · simp [hlat]
    intro hs hn
    exact absurd ⟨hs, hn⟩ hlat

/-- `convert_aircraft` copies position fields verbatim. -/
theorem convert_aircraft_lat_lon (ac : V2ResponseAcItem) :
    (convert_aircraft ac).lat = ac.lat ∧ (convert_aircraft ac).lon = ac.lon :=
  ⟨rfl, rfl⟩

/-! ## Claim theorems -/

/-- C4: the point-in-box test returns true exactly when the point has both
lat and lon present, `lat_south ≤ lat ≤ lat_north` holds inclusively, and the
longitude condition holds: inclusive range when `lon_west ≤ lon_east`, and
`lon ≥ lon_west ∨ lon ≤ lon_east` when the box crosses the antimeridian
(`lon_west > lon_east`). A point with missing lat or lon never qualifies. -/
theorem C4_point_in_box_characterization (ac : V2ResponseAcItem)
    (lat_south lat_north lon_west lon_east : ℚ) :
    is_in_box ac lat_south lat_north lon_west lon_east = true ↔
      ∃ la lo, ac.lat = some la ∧ ac.lon = some lo ∧
        lat_south ≤ la ∧ la ≤ lat_north ∧
        ((lon_west ≤ lon_east ∧ lon_west ≤ lo ∧ lo ≤ lon_east) ∨
         (lon_east < lon_west ∧ (lo ≥ lon_west ∨ lo ≤ lon_east))) :=
  is_in_box_iff ac lat_south lat_north lon_west lon_east

/-- C2: every record returned by the simulated box search has a position and
satisfies the point-in-box test against the requested boundaries; no record
without a position is returned; the result is marked `simulated` and its
`result_count` equals the number of records that passed the filter. -/
theorem C2_box_simulation_filter (oracle : V2Oracle)
    (lat_south lat_north lon_west lon_east : ℚ) (filters : Option QueryFilters)
    (sd : SkyData)
    (h : (OpenAPIAdapter.get_in_box oracle lat_south lat_north lon_west lon_east filters).2
      = Except.ok sd) :
    sd.simulated = true ∧
    sd.result_count = (sd.aircraft.length : ℤ) ∧
    ∀ a ∈ sd.aircraft, ∃ la lo, a.lat = some la ∧ a.lon = some lo ∧
      lat_south ≤ la ∧ la ≤ lat_north ∧
      ((lon_west ≤ lon_east ∧ lon_west ≤ lo ∧ lo ≤ lon_east) ∨
       (lon_east < lon_west ∧ (lo ≥ lon_west ∨ lo ≤ lon_east))) := by
  unfold OpenAPIAdapter.get_in_box at h
  simp only [Except.ok.injEq] at h
  subst h
  refine ⟨rfl, rfl, ?_⟩
  intro a ha
  simp only [List.mem_map, List.mem_filter] at ha
  obtain ⟨ac, ⟨hmem, hbox⟩, hconv⟩ := ha
  obtain ⟨la, lo, hla, hlo, hrest⟩ :=
    (is_in_box_iff ac lat_south lat_north lon_west lon_east).mp hbox
  subst hconv
  exact ⟨la, lo, by simpa [convert_aircraft] using hla,
    by simpa [convert_aircraft] using hlo, hrest⟩

/-- Concrete wire items for witnessing the box-simulation theorems: one
inside the box [0,2]×[0,2], one outside it, one without a position. -/
def boxItemInside : V2ResponseAcItem := { hex := "aaa111", lat := some 1, lon := some 1 }

/-- A wire item outside the witness box (latitude 5). -/
def boxItemOutside : V2ResponseAcItem := { hex := "bbb222", lat := some 5, lon := some 1 }

/-- A wire item with no position data. -/
def boxItemNoPos : V2ResponseAcItem := { hex := "ccc333" }

/-- Witness server response for the box simulation. -/
def boxWitnessResp : V2ResponseModel :=
  { ac := [boxItemInside, boxItemOutside, boxItemNoPos], total := 3, now := 7 }

/-- The unified result the box simulation produces on `boxWitnessResp`. -/
def boxWitnessSd : SkyData :=
  { timestamp := 7
    result_count := 1
    processing_time := none
    aircraft := [convert_aircraft boxItemInside]
    backend := .openapi
    simulated := true }

/-- Witness for C2 at the box [0,2]×[0,2]: of three candidate records the
single in-box one is returned, flagged simulated, with matching count. -/
theorem C2_box_simulation_filter_witness :
    boxWitnessSd.simulated = true ∧
    boxWitnessSd.result_count = (boxWitnessSd.aircraft.length : ℤ) ∧
    ∀ a ∈ boxWitnessSd.aircraft, ∃ la lo, a.lat = some la ∧ a.lon = some lo ∧
      (0:ℚ) ≤ la ∧ la ≤ 2 ∧
      (((0:ℚ) ≤ (2:ℚ) ∧ (0:ℚ) ≤ lo ∧ lo ≤ 2) ∨
       ((2:ℚ) < (0:ℚ) ∧ (lo ≥ (0:ℚ) ∨ lo ≤ (2:ℚ)))) :=
  C2_box_simulation_filter (fun _ => boxWitnessResp) 0 2 0 2 none boxWitnessSd (by rfl)

/-- C3: the simulated box search issues exactly one native radius-search
request, centered at the midpoint of the latitude and longitude boundaries,
with radius `int()` of 1.1 times the haversine great-circle distance from
that center to the north-east corner; the haversine distance is the
great-circle formula with Earth radius 3440.065 NM. -/
theorem C3_box_single_covering_request (oracle : V2Oracle)
    (lat_south lat_north lon_west lon_east : ℚ) (filters : Option QueryFilters) :
    (OpenAPIAdapter.get_in_box oracle lat_south lat_north lon_west lon_east filters).1
      = [V2Request.point ((lat_south + lat_north) / 2) ((lon_west + lon_east) / 2)
          (pyInt (boxCoveringRadius lat_south lat_north lon_west lon_east))] ∧
    boxCoveringRadius lat_south lat_north lon_west lon_east
      = calculate_haversine_distance
          (((lat_south + lat_north) / 2 : ℚ) : ℝ) (((lon_west + lon_east) / 2 : ℚ) : ℝ)
          ((lat_north : ℚ) : ℝ) ((lon_east : ℚ) : ℝ) * 1.1 ∧
    (∀ lat1 lon1 lat2 lon2 : ℝ,
      calculate_haversine_distance lat1 lon1 lat2 lon2 =
        3440.065 * (2 * atan2
          (Real.sqrt (Real.sin (radians (lat2 - lat1) / 2) ^ 2 +
            Real.cos (radians lat1) * Real.cos (radians lat2) *
              Real.sin (radians (lon2 - lon1) / 2) ^ 2))
          (Real.sqrt (1 - (Real.sin (radians (lat2 - lat1) / 2) ^ 2 +
            Real.cos (radians lat1) * Real.cos (radians lat2) *
              Real.sin (radians (lon2 - lon1) / 2) ^ 2))))) :=
  ⟨rfl, rfl, fun _ _ _ _ => rfl⟩

/-- C10: every Backend B geographic operation passes the caller-supplied or
computed covering radius through `int()`, i.e. truncation toward zero: the
radius-search request carries `pyInt radius`; on non-negative values `pyInt`
is the floor (fractional part discarded), on negative values the ceiling, and
any radius in `[0, 1)` is sent as `0`. -/
theorem C10_radius_truncated_via_int :
    (∀ (oracle : V2Oracle) (lat lon radius : ℚ) (filters : Option QueryFilters),
      (OpenAPIAdapter.get_in_circle oracle lat lon radius filters).1
        = [V2Request.point lat lon (pyInt radius)]) ∧
    (∀ (oracle : V2Oracle) (lat lon radius : ℚ) (filters : Option QueryFilters),
      (OpenAPIAdapter.get_closest oracle lat lon radius filters).1
        = [V2Request.closest lat lon (pyInt radius)]) ∧
    (∀ (oracle : V2Oracle) (lat_south lat_north lon_west lon_east : ℚ)
        (filters : Option QueryFilters),
      (OpenAPIAdapter.get_in_box oracle lat_south lat_north lon_west lon_east filters).1
        = [V2Request.point ((lat_south + lat_north) / 2) ((lon_west + lon_east) / 2)
            (pyInt (boxCoveringRadius lat_south lat_north lon_west lon_east))]) ∧
    (∀ q : ℚ, 0 ≤ q → pyInt q = ⌊q⌋) ∧
    (∀ q : ℚ, q < 0 → pyInt q = ⌈q⌉) ∧
    (∀ q : ℚ, 0 ≤ q → q < 1 → pyInt q = 0) := by
  refine ⟨fun _ _ _ _ _ => rfl, fun _ _ _ _ _ => rfl, fun _ _ _ _ _ _ => rfl,
    fun q hq => if_pos hq, fun q hq => if_neg (not_le.mpr hq), fun q h0 h1 => ?_⟩
  rw [pyInt, if_pos h0]
  exact Int.floor_eq_zero_iff.mpr ⟨h0, h1⟩

/-- Witness for C10 at radius 1/2: non-negative, below one, truncated to 0. -/
theorem C10_radius_truncated_via_int_witness :
    pyInt (mkRat 1 2) = 0 :=
  C10_radius_truncated_via_int.2.2.2.2.2 (mkRat 1 2) (by decide) (by decide)

/-- C5: `get_all_with_pos` on the OpenAPI backend always fails with the
`UnsupportedOperation` signal naming the coverage limitation, for every
filters argument, with no network request issued (empty request list) —
both at the adapter and through the facade with an active openapi adapter. -/
theorem C5_get_all_with_pos_unsupported (filters : Option QueryFilters) :
    OpenAPIAdapter.get_all_with_pos filters
      = ([], Except.error (SkyErr.unsupportedOperation
          "get_all_with_pos() is not supported by the OpenAPI backend due to the 250 NM radius limitation. Please use backend=\x27reapi\x27 for this operation.")) ∧
    ∀ oracle : V2Oracle,
      (SkySnoopClient.mk BackendType.openapi
        (some (OpenAPIAdapter.impl oracle))).get_all_with_pos filters
      = ([], Except.error (SkyErr.unsupportedOperation
          "get_all_with_pos() is not supported by the OpenAPI backend due to the 250 NM radius limitation. Please use backend=\x27reapi\x27 for this operation.")) :=
  ⟨rfl, fun _ => rfl⟩

/-- C6: backend selection is deterministic in the credential and preference:
any non-empty credential (including whitespace-only) selects openapi; a
`None` or empty-string credential selects reapi when `prefer_reapi` is true
and openapi otherwise. -/
theorem C6_backend_selection_deterministic :
    (∀ s : String, s ≠ "" → ∀ b : Bool, select_backend_sync (some s) b = .openapi) ∧
    select_backend_sync none true = .reapi ∧
    select_backend_sync none false = .openapi ∧
    select_backend_sync (some "") true = .reapi ∧
    select_backend_sync (some "") false = .openapi := by
  refine ⟨fun s hs b => ?_, rfl, rfl, rfl, rfl⟩
  simp [select_backend_sync, pyTruthyStr, hs]

/-- Witness for C6 at the whitespace-only credential `" "`: counts as
present, so openapi is selected even with `prefer_reapi = true`. -/
theorem C6_backend_selection_deterministic_witness :
    select_backend_sync (some " ") true = .openapi :=
  C6_backend_selection_deterministic.1 " " (by decide) true

/-- C7: `QueryFilters` construction fails (the `InvalidParameters` kind:
pydantic `ValueError`) iff both callsign modes are set, or both altitude
thresholds are set with the above-threshold strictly greater than the
below-threshold; construction with equal thresholds succeeds and returns the
filters unchanged. -/
theorem C7_query_filters_validation (f : QueryFilters) :
    ((∃ e, mkQueryFilters f = Except.error e) ↔
      (f.callsign_exact.isSome = true ∧ f.callsign_prefix.isSome = true) ∨
      (∃ a b, f.above_alt_baro = some a ∧ f.below_alt_baro = some b ∧ b < a)) ∧
    (∀ a : ℤ, f.above_alt_baro = some a → f.below_alt_baro = some a →
      ¬(f.callsign_exact.isSome = true ∧ f.callsign_prefix.isSome = true) →
      mkQueryFilters f = Except.ok f) := by
  obtain ⟨ce, cp, sq, tc, ab, bb, mil, pia, ladd⟩ := f
  rcases ce with _ | ce <;> rcases cp with _ | cp <;>
    rcases ab with _ | a <;> rcases bb with _ | b <;>
    simp [mkQueryFilters, validate_callsign_filters, validate_altitude_range,
      Bind.bind, Except.bind] <;>
    split_ifs <;> simp_all

/-- Filters with equal altitude thresholds, witnessing that construction
accepts them. -/
def equalAltFilters : QueryFilters :=
  { above_alt_baro := some 1000, below_alt_baro := some 1000 }

/-- Witness for C7: equal altitude thresholds construct successfully. -/
theorem C7_query_filters_validation_witness :
    mkQueryFilters equalAltFilters = Except.ok equalAltFilters :=
  (C7_query_filters_validation equalAltFilters).2 1000 rfl rfl (by simp [equalAltFilters])

/-- C8: every public facade operation invoked outside the scoped-acquisition
block (adapter not instantiated) fails immediately with the programmer-error
signal — Python's `RuntimeError`, the spec's `NotInitialized` kind — and
issues no network request (empty request trace), for all arguments. -/
theorem C8_operations_require_active_block (c : SkySnoopClient)
    (h : c.adapter = none) :
    (∀ s, c.get_by_hex s = ([], Except.error (SkyErr.runtimeError
      "SkySnoop must be used as an async context manager"))) ∧
    (∀ s, c.get_by_callsign s = ([], Except.error (SkyErr.runtimeError
      "SkySnoop must be used as an async context manager"))) ∧
    (∀ s, c.get_by_registration s = ([], Except.error (SkyErr.runtimeError
      "SkySnoop must be used as an async context manager"))) ∧
    (∀ s, c.get_by_type s = ([], Except.error (SkyErr.runtimeError
      "SkySnoop must be used as an async context manager"))) ∧
    (∀ lat lon radius filters, c.get_in_circle lat lon radius filters
      = ([], Except.error (SkyErr.runtimeError
        "SkySnoop must be used as an async context manager"))) ∧
    (∀ lat lon radius filters, c.get_closest lat lon radius filters
      = ([], Except.error (SkyErr.runtimeError
        "SkySnoop must be used as an async context manager"))) ∧
    (∀ lat_min lat_max lon_min lon_max filters,
      c.get_in_box lat_min lat_max lon_min lon_max filters
      = ([], Except.error (SkyErr.runtimeError
        "SkySnoop must be used as an async context manager"))) ∧
    (∀ filters, c.get_all_with_pos filters
      = ([], Except.error (SkyErr.runtimeError
        "SkySnoop must be used as an async context manager"))) := by
  have he : ensure_adapter c = Except.error (SkyErr.runtimeError
      "SkySnoop must be used as an async context manager") := by
    unfold ensure_adapter
    rw [h]
  exact ⟨fun _ => by simp [SkySnoopClient.get_by_hex, he],
    fun _ => by simp [SkySnoopClient.get_by_callsign, he],
    fun _ => by simp [SkySnoopClient.get_by_registration, he],
    fun _ => by simp [SkySnoopClient.get_by_type, he],
    fun _ _ _ _ => by simp [SkySnoopClient.get_in_circle, he],
    fun _ _ _ _ => by simp [SkySnoopClient.get_closest, he],
    fun _ _ _ _ _ => by simp [SkySnoopClient.get_in_box, he],
    fun _ => by simp [SkySnoopClient.get_all_with_pos, he]⟩

/-- A facade straight out of `__init__`, before entering its scoped block. -/
def uninitializedClient : SkySnoopClient :=
  { backend_type := .reapi, adapter := none }

/-- Witness for C8: a lookup on a facade outside its scoped block fails with
the programmer-error signal and records no network request. -/
theorem C8_operations_require_active_block_witness :
    uninitializedClient.get_by_hex "abc123" = ([], Except.error
      (SkyErr.runtimeError "SkySnoop must be used as an async context manager")) :=
  (C8_operations_require_active_block uninitializedClient rfl).1 "abc123"

/-- Helper: any entry contributed by one filter statement has that
statement's key. -/
theorem key_of_optEntry {α : Type} {kv : String × String} {o : Option α}
    {key : String} {render : α → String} (h : kv ∈ optEntry o key render) :
    kv.1 = key := by
  cases o with
  | none => cases h
  | some v =>
    rcases List.mem_singleton.mp h with h'
    rw [h']

/-- Helper: a set field contributes its entry to the parameter list. -/
theorem mem_optEntry_self {α : Type} (v : α) (key : String) (render : α → String) :
    (key, render v) ∈ optEntry (some v) key render :=
  List.mem_singleton.mpr rfl

/-- C9: Backend A query strings are plain comma-joined `key=value` strings —
`build_circle`/`build_closest`/`build_box` join the multi-value parameters
with literal commas (no percent-encoding is applied to the coordinate
segment); filter parameters are appended as the urlencoded filter dictionary,
every filter key carries the `filter_` prefix, boolean filter values
serialize as the literal strings `true`/`false` (which percent-encoding
leaves untouched, unlike a comma). -/
theorem C9_query_string_format :
    (∀ lat lon radius : ℚ, QueryBuilder.build_circle lat lon radius none
      = "circle=" ++ pyFloatStr lat ++ "," ++ pyFloatStr lon ++ "," ++ pyFloatStr radius) ∧
    (∀ lat lon radius : ℚ, QueryBuilder.build_closest lat lon radius none
      = "closest=" ++ pyFloatStr lat ++ "," ++ pyFloatStr lon ++ "," ++ pyFloatStr radius) ∧
    (∀ lat_south lat_north lon_west lon_east : ℚ,
      QueryBuilder.build_box lat_south lat_north lon_west lon_east none
      = "box=" ++ pyFloatStr lat_south ++ "," ++ pyFloatStr lat_north ++ "," ++
          pyFloatStr lon_west ++ "," ++ pyFloatStr lon_east) ∧
    (∀ (lat lon radius : ℚ) (f : QueryFilters),
      QueryBuilder.build_circle lat lon radius (some f)
      = (if QueryFilters.to_query_string f = ""
          then "circle=" ++ pyFloatStr lat ++ "," ++ pyFloatStr lon ++ "," ++ pyFloatStr radius
          else "circle=" ++ pyFloatStr lat ++ "," ++ pyFloatStr lon ++ "," ++ pyFloatStr radius
            ++ "&" ++ QueryFilters.to_query_string f)) ∧
    (∀ (f : QueryFilters) (kv : String × String),
      kv ∈ QueryFilters.to_query_params f → ∃ rest, kv.1 = "filter_" ++ rest) ∧
    (∀ (f : QueryFilters) (b : Bool), f.mil = some b →
      ("filter_mil", if b then "true" else "false") ∈ QueryFilters.to_query_params f) ∧
    (∀ (f : QueryFilters) (b : Bool), f.pia = some b →
      ("filter_pia", if b then "true" else "false") ∈ QueryFilters.to_query_params f) ∧
    (∀ (f : QueryFilters) (b : Bool), f.ladd = some b →
      ("filter_ladd", if b then "true" else "false") ∈ QueryFilters.to_query_params f) ∧
    quote_via_plus "true" = "true" ∧
    quote_via_plus "false" = "false" ∧
    quote_via_plus "," = "%2C" := by
  refine ⟨fun _ _ _ => rfl, fun _ _ _ => rfl, fun _ _ _ _ => rfl, fun _ _ _ _ => rfl,
    ?_, ?_, ?_, ?_, by decide, by decide, by decide⟩
  · intro f kv h
    simp only [QueryFilters.to_query_params, List.mem_append] at h
    rcases h with ((((((((h | h) | h) | h) | h) | h) | h) | h) | h)
    · exact ⟨"callsign", by rw [key_of_optEntry h]; rfl⟩
    · exact ⟨"callsign_prefix", by rw [key_of_optEntry h]; rfl⟩
    · exact ⟨"squawk", by rw [key_of_optEntry h]; rfl⟩
    · exact ⟨"type", by rw [key_of_optEntry h]; rfl⟩
    · exact ⟨"above_alt_baro", by rw [key_of_optEntry h]; rfl⟩
    · exact ⟨"below_alt_baro", by rw [key_of_optEntry h]; rfl⟩
    · exact ⟨"mil", by rw [key_of_optEntry h]; rfl⟩
    · exact ⟨"pia", by rw [key_of_optEntry h]; rfl⟩
    · exact ⟨"ladd", by rw [key_of_optEntry h]; rfl⟩
  · intro f b hb
    simp only [QueryFilters.to_query_params, List.mem_append]
    refine Or.inl (Or.inl (Or.inr ?_))
    rw [hb]
    exact mem_optEntry_self b "filter_mil" (fun v => if v then "true" else "false")
  · intro f b hb
    simp only [QueryFilters.to_query_params, List.mem_append]
    refine Or.inl (Or.inr ?_)
    rw [hb]
    exact mem_optEntry_self b "filter_pia" (fun v => if v then "true" else "false")
  · intro f b hb
    simp only [QueryFilters.to_query_params, List.mem_append]
    refine Or.inr ?_
    rw [hb]
    exact mem_optEntry_self b "filter_ladd" (fun v => if v then "true" else "false")

/-- Filters with only the military flag set, for the C9 witness. -/
def milOnlyFilters : QueryFilters := { mil := some true }

/-- Witness for C9: the military filter contributes the entry
`filter_mil=true`, whose key carries the `filter_` prefix. -/
theorem C9_query_string_format_witness :
    ("filter_mil", "true") ∈ QueryFilters.to_query_params milOnlyFilters ∧
    ∃ rest, ("filter_mil", "true").1 = "filter_" ++ rest :=
  ⟨C9_query_string_format.2.2.2.2.2.1 milOnlyFilters true rfl,
   C9_query_string_format.2.2.2.2.1 milOnlyFilters ("filter_mil", "true")
     (C9_query_string_format.2.2.2.2.2.1 milOnlyFilters true rfl)⟩

/-- The unified-result count invariant: `result_count` equals the length of
the record list. -/
def countInvariant (sd : SkyData) : Prop :=
  sd.result_count = (sd.aircraft.length : ℤ)

/-- An operation outcome satisfies the count invariant whenever it succeeds. -/
def countOk {ρ : Type} (res : ρ × Except SkyErr SkyData) : Prop :=
  ∀ sd, res.2 = Except.ok sd → countInvariant sd

/-- A v2 oracle whose every response reports `total` equal to `len(ac)`
(what a well-behaved server sends; the client does not enforce it). -/
def v2CountConsistent (oracle : V2Oracle) : Prop :=
  ∀ q, (oracle q).total = ((oracle q).ac.length : ℤ)

/-- An RE-API oracle whose every response reports `resultCount` equal to
the length of its record list. -/
def reCountConsistent (oracle : ReOracle) : Prop :=
  ∀ q, (oracle q).resultCount = ((oracle q).aircraft.length : ℤ)

/-- A wire response whose reported `total` (1) disagrees with its empty
record list, as nothing in the client or the generated schema forbids. -/
def inconsistentV2Resp : V2ResponseModel := { ac := [], total := 1, now := 0 }

/-- C1 counterexample: a client operation (OpenAPI hex lookup) produces a
`SkyData` whose `result_count` is 1 while its record list is empty — the
adapter copies the server-reported count instead of the list length, so the
invariant fails as soon as the wire response is inconsistent. -/
theorem C1_result_count_counterexample :
    (OpenAPIAdapter.get_by_hex (fun _ => inconsistentV2Resp) "abc123").2
      = Except.ok
          { timestamp := 0
            result_count := 1
            processing_time := none
            aircraft := []
            backend := .openapi
            simulated := false } ∧
    ¬ countInvariant
        { timestamp := 0
          result_count := 1
          processing_time := none
          aircraft := []
          backend := .openapi
          simulated := false } :=
  ⟨rfl, by simp [countInvariant]⟩

/-- C1 (amended): for every client operation on either backend, the produced
`SkyData` satisfies `result_count = len(aircraft)` provided each native
response reports a count equal to its record-list length; for the simulated
box search the invariant holds unconditionally (the count is computed from
the filtered list). -/
theorem C1_result_count_invariant :
    (∀ oracle : V2Oracle, v2CountConsistent oracle →
      (∀ s, countOk (OpenAPIAdapter.get_by_hex oracle s)) ∧
      (∀ s, countOk (OpenAPIAdapter.get_by_callsign oracle s)) ∧
      (∀ s, countOk (OpenAPIAdapter.get_by_registration oracle s)) ∧
      (∀ s, countOk (OpenAPIAdapter.get_by_type oracle s)) ∧
      (∀ lat lon radius filters,
        countOk (OpenAPIAdapter.get_in_circle oracle lat lon radius filters)) ∧
      (∀ lat lon radius filters,
        countOk (OpenAPIAdapter.get_closest oracle lat lon radius filters))) ∧
    (∀ (oracle : V2Oracle) (lat_south lat_north lon_west lon_east : ℚ) (filters : Option QueryFilters),
      countOk (OpenAPIAdapter.get_in_box oracle lat_south lat_north lon_west lon_east filters)) ∧
    (∀ oracle : ReOracle, reCountConsistent oracle →
      (∀ s, countOk (ReAPIAdapter.get_by_hex oracle s)) ∧
      (∀ s, countOk (ReAPIAdapter.get_by_callsign oracle s)) ∧
      (∀ s, countOk (ReAPIAdapter.get_by_registration oracle s)) ∧
      (∀ s, countOk (ReAPIAdapter.get_by_type oracle s)) ∧
      (∀ lat lon radius filters,
        countOk (ReAPIAdapter.get_in_circle oracle lat lon radius filters)) ∧
      (∀ lat lon radius filters,
        countOk (ReAPIAdapter.get_closest oracle lat lon radius filters)) ∧
      (∀ lat_south lat_north lon_west lon_east filters,
        countOk (ReAPIAdapter.get_in_box oracle lat_south lat_north lon_west lon_east filters)) ∧
      (∀ filters, countOk (ReAPIAdapter.get_all_with_pos oracle filters))) := by
  have hv2 : ∀ (oracle : V2Oracle), v2CountConsistent oracle →
      ∀ (q : V2Request), countInvariant (convert_v2_response (oracle q) false) := by
    intro oracle hc q
    simpa [convert_v2_response, countInvariant] using hc q
  have hre : ∀ (oracle : ReOracle), reCountConsistent oracle →
      ∀ (q : String), countInvariant (convert_api_response (oracle q) false) := by
    intro oracle hc q
    simpa [convert_api_response, countInvariant] using hc q
  refine ⟨fun oracle hc => ?_, fun oracle ls ln lw le filters sd h => ?_, fun oracle hc => ?_⟩
  · exact ⟨fun s sd h => by cases h; exact hv2 oracle hc _,
      fun s sd h => by cases h; exact hv2 oracle hc _,
      fun s sd h => by cases h; exact hv2 oracle hc _,
      fun s sd h => by cases h; exact hv2 oracle hc _,
      fun lat lon radius filters sd h => by cases h; exact hv2 oracle hc _,
      fun lat lon radius filters sd h => by cases h; exact hv2 oracle hc _⟩
  · unfold OpenAPIAdapter.get_in_box at h
    simp only [Except.ok.injEq] at h
    subst h
    rfl
  · exact ⟨fun s sd h => by cases h; exact hre oracle hc _,
      fun s sd h => by cases h; exact hre oracle hc _,
      fun s sd h => by cases h; exact hre oracle hc _,
      fun s sd h => by cases h; exact hre oracle hc _,
      fun lat lon radius filters sd h => by cases h; exact hre oracle hc _,
      fun lat lon radius filters sd h => by cases h; exact hre oracle hc _,
      fun ls ln lw le filters sd h => by cases h; exact hre oracle hc _,
      fun filters sd h => by cases h; exact hre oracle hc _⟩

/-- A consistent v2 response for the C1 witness. -/
def consistentV2Resp : V2ResponseModel := { ac := [boxItemInside], total := 1, now := 0 }

/-- A consistent RE-API response for the C1 witness. -/
def consistentApiResp : APIResponse :=
  { now := 0, resultCount := 1, ptime := 3, aircraft := [convert_aircraft boxItemInside] }

/-- Witness for C1 (amended) on both backends with count-consistent
servers. -/
theorem C1_result_count_invariant_witness :
    countOk (OpenAPIAdapter.get_by_hex (fun _ => consistentV2Resp) "abc123") ∧
    countOk (ReAPIAdapter.get_by_hex (fun _ => consistentApiResp) "abc123") :=
  ⟨(C1_result_count_invariant.1 (fun _ => consistentV2Resp) (fun _ => rfl)).1 "abc123",
   (C1_result_count_invariant.2.2 (fun _ => consistentApiResp) (fun _ => rfl)).1 "abc123"⟩

end SkySnoop
